import Mathlib

/-!
Shallow embedding of the XMPP client core found in
`client/rfc6120/client.go` and the roster layer in `client/rfc6121/client.go`.

Pure computations (version checking, XML escaping, base64, id generation,
wire formatting) are translated directly as Lean functions.  The stateful
router (`Connection.read`), the close path (`Connection.Close`) and the
subscriber fan-out (`subscribers.send`) are modelled as explicit
state-passing functions that additionally record the externally visible
operations they perform (channel sends, channel closes, map deletions,
transport writes) as an event trace, in the order the Go code performs them.
-/

namespace XmppClient

/-- Stanza header shared by message, presence and iq
(`Header` in client.go; `from` is renamed, it is a Lean keyword). -/
structure Header where
  fromAttr : String
  id : String
  toAttr : String
  typ : String
deriving DecidableEq

/-- An XML qualified name (space, local part); `local` is a Lean keyword. -/
structure XmlName where
  space : String
  localName : String
deriving DecidableEq

/-- The `Error` payload of a stanza (code, type, text). -/
structure ErrData where
  code : String
  typ : String
  text : String
deriving DecidableEq

/-- The `IQ` stanza: header, optional error, query name, raw inner XML. -/
structure IQ where
  header : Header
  error : Option ErrData
  query : XmlName
  inner : String
deriving DecidableEq

/-- The stanza variants the router constructs from the element name
(`message`, `presence`, `iq`, stanza-level `error`, `stream:error`). -/
inductive Stanza where
  | message (h : Header) (subject body thread : String)
  | presence (h : Header) (lang showAttr status : String) (priority : Int)
  | iq (q : IQ)
  | stanzaError (e : ErrData)
  | streamError (text : String)
deriving DecidableEq

/-- `Stanza.ID()`: the header id for the three routable stanzas,
`""` for the error variants. -/
def Stanza.ID : Stanza → String
  | .message h _ _ _ => h.id
  | .presence h _ _ _ _ => h.id
  | .iq q => q.header.id
  | .stanzaError _ => ""
  | .streamError _ => ""

/-- `Stanza.IsError()`. -/
def Stanza.IsError : Stanza → Bool
  | .stanzaError _ => true
  | .streamError _ => true
  | _ => false

/-! ## XML escaping (`xmlSpecial` / `xmlEscape`) -/

/-- The per-byte translation of `xmlEscape`: the five characters in the
`xmlSpecial` map become named entities, every other character is kept. -/
def escChar (c : Char) : List Char :=
  if c = Char.ofNat 60 then "&lt;".toList
  else if c = Char.ofNat 62 then "&gt;".toList
  else if c = Char.ofNat 34 then "&quot;".toList
  else if c = Char.ofNat 39 then "&apos;".toList
  else if c = Char.ofNat 38 then "&amp;".toList
  else [c]

/-- `xmlEscape`: iterate over the string, appending either the escape
sequence or the original character. -/
def xmlEscape (s : String) : String :=
  String.mk (s.data.flatMap escChar)

/-- Modelled from the spec: the repository ships no unescape routine, but
the spec's round-trip law ("XML escape ∘ XML unescape = identity") needs
one; this is the standard decoder for the five named entities emitted by
`xmlEscape`, copying every other character unchanged. -/
def unesc : List Char → List Char
  | [] => []
  | c :: r =>
    if c = Char.ofNat 38 ∧ r.take 3 = "lt;".toList then Char.ofNat 60 :: unesc (r.drop 3)
    else if c = Char.ofNat 38 ∧ r.take 3 = "gt;".toList then Char.ofNat 62 :: unesc (r.drop 3)
    else if c = Char.ofNat 38 ∧ r.take 4 = "amp;".toList then Char.ofNat 38 :: unesc (r.drop 4)
    else if c = Char.ofNat 38 ∧ r.take 5 = "quot;".toList then Char.ofNat 34 :: unesc (r.drop 5)
    else if c = Char.ofNat 38 ∧ r.take 5 = "apos;".toList then Char.ofNat 39 :: unesc (r.drop 5)
    else c :: unesc r
termination_by l => l.length
decreasing_by
  all_goals simp [List.length_drop]
  all_goals omega

/-- Modelled from the spec: string-level wrapper around `unesc`. -/
def xmlUnescape (s : String) : String :=
  String.mk (unesc s.data)

/-! ## The id generator (`generateCookies`) -/

/-- Decimal rendering of a natural number, most significant digit first,
as produced by Go's `fmt.Sprintf("%d", id)`. -/
def digitChar (d : Nat) : Char := Char.ofNat (48 + d)

/-- Decimal rendering of a natural number ("0" for zero). -/
def decimalStr (n : Nat) : String :=
  if n = 0 then "0" else String.mk (((Nat.digits 10 n).reverse).map digitChar)

/-- The digit value of a decimal digit character (inverse of `digitChar`),
used to state that `decimalStr` is faithful decimal rendering. -/
def charDigit (c : Char) : Nat := c.toNat - 48

/-- Reads a decimal string back into the number it denotes. -/
def strToNat (s : String) : Nat :=
  Nat.ofDigits 10 ((s.data.map charDigit).reverse)

/-- `generateCookies`: the ids handed out by the generator goroutine.  The
counter is a Go `uint64` starting at 0 and incremented after each id, so
it advances modulo 2^64.  `generateCookies n id` is the list of the next
`n` ids handed out when the counter currently holds `id`. -/
def generateCookies : Nat → Nat → List String
  | 0, _ => []
  | Nat.succ k, id => decimalStr id :: generateCookies k ((id + 1) % 2 ^ 64)

/-! ## SASL PLAIN (`Connection.sasl`) -/

/-- One character of the standard (RFC 4648) base64 alphabet, as used by
Go's `base64.StdEncoding`. -/
def b64Char (n : Nat) : Char :=
  "ABCDEFGHIJKLMNOPQRSTUVWXYZabcdefghijklmnopqrstuvwxyz0123456789+/".toList.getD n (Char.ofNat 65)

/-- `base64.StdEncoding.EncodeToString` over a byte list: groups of three
bytes become four alphabet characters; a trailing group of one or two
bytes is padded with `=`. -/
def b64Encode : List Nat → List Char
  | [] => []
  | [b0] =>
    [b64Char (b0 / 4), b64Char (b0 % 4 * 16), Char.ofNat 61, Char.ofNat 61]
  | [b0, b1] =>
    [b64Char (b0 / 4), b64Char (b0 % 4 * 16 + b1 / 16), b64Char (b1 % 16 * 4), Char.ofNat 61]
  | b0 :: b1 :: b2 :: rest =>
    b64Char (b0 / 4) :: b64Char (b0 % 4 * 16 + b1 / 16) ::
      b64Char (b1 % 16 * 4 + b2 / 64) :: b64Char (b2 % 64) :: b64Encode rest

/-- The bytes of an ASCII string (credentials are byte strings in Go). -/
def asciiBytes (s : String) : List Nat := s.data.map Char.toNat

/-- `Connection.sasl`: the bytes written for SASL PLAIN.  The payload is
`\x00 user \x00 password`, base64-encoded, wrapped in the `<auth>` element. -/
def saslAuth (user password : List Nat) : String :=
  "<auth xmlns='urn:ietf:params:xml:ns:xmpp-sasl' mechanism='PLAIN'>" ++
    String.mk (b64Encode (0 :: (user ++ 0 :: password))) ++ "</auth>"

/-! ## Stream opener validation (`Connection.receiveStream`) -/

/-- The start element returned by `nextStartElement`; attributes carry a
qualified name and a value. -/
structure StartElement where
  name : XmlName
  attr : List (XmlName × String)
deriving DecidableEq

/-- Outcome of `receiveStream` (success, or one of its error returns; the
invalid-namespace branch writes a stream error and closes, modelled as its
own outcome). -/
inductive ReceiveOutcome where
  | ok
  | unexpectedMessage (name : String)
  | invalidNamespace
  | unsupportedVersion (v : String)
deriving DecidableEq

/-- The attribute scan of `receiveStream`: iterate over the attributes,
remembering the value of each one whose local name is `version`
(the last occurrence wins); `""` when absent. -/
def versionOfAttrs (attrs : List (XmlName × String)) : String :=
  attrs.foldl (fun v a => if a.1.localName = "version" then a.2 else v) ""

/-- `strings.Split(version, ".")[0]`: the prefix before the first dot. -/
def majorPart (s : String) : String :=
  String.mk (s.data.takeWhile (fun c => c ≠ Char.ofNat 46))

/-- `Connection.receiveStream` on the peer's opening start element. -/
def receiveStream (t : StartElement) : ReceiveOutcome :=
  if t.name.localName ≠ "stream" then ReceiveOutcome.unexpectedMessage t.name.localName
  else if t.name.space ≠ "http://etherx.jabber.org/streams" then ReceiveOutcome.invalidNamespace
  else
    let version := versionOfAttrs t.attr
    if version = "" then ReceiveOutcome.unsupportedVersion "0.9"
    else if majorPart version ≠ "1" then ReceiveOutcome.unsupportedVersion version
    else ReceiveOutcome.ok

/-- A stream element in the correct namespace with the given attributes. -/
def mkStreamOpener (attrs : List (XmlName × String)) : StartElement :=
  ⟨⟨"http://etherx.jabber.org/streams", "stream"⟩, attrs⟩

/-- The attribute name under which the version arrives. -/
def versionAttr (v : String) : XmlName × String := (⟨"", "version"⟩, v)

/-! ## Router, close path and event traces -/

/-- The externally visible operations of the router and the close path,
recorded in the order the Go code performs them.  Delivery slots
(the buffered channels made by `SendIQ`) are identified by a `Nat`. -/
inductive Event where
  | deliver (ch : Nat) (q : IQ)
  | removeCb (id : String)
  | fanout (s : Stanza)
  | closeChan (ch : Nat)
  | write (bytes : String)
  | closeTCP
deriving DecidableEq

/-- The connection state the router and `Close` touch: the callbacks map
(as an association list, keys unique as in a Go map) and the `closing` flag. -/
structure ConnState where
  callbacks : List (String × Nat)
  closing : Bool
deriving DecidableEq

/-- Go map lookup `c.callbacks[id]`. -/
def cbLookup (l : List (String × Nat)) (id : String) : Option Nat :=
  match l with
  | [] => none
  | (k, v) :: r => if k = id then some v else cbLookup r id

/-- Go map deletion `delete(c.callbacks, id)`. -/
def cbRemove (l : List (String × Nat)) (id : String) : List (String × Nat) :=
  l.filter (fun p => p.1 != id)

/-- `Connection.Close`: when `closing` is already set, terminate the TCP
connection; otherwise write the stream trailer and set `closing`. -/
def closeConn (c : ConnState) : ConnState × List Event :=
  if c.closing then (c, [Event.closeTCP])
  else ({ c with closing := true }, [Event.write "</stream:stream>"])

/-- One iteration of `Connection.read` on a decoded stanza: an IQ of type
`result` or `error` whose id is registered is sent into its slot and then
deleted from the map (in that order); such an IQ with no registered id is
dropped; everything else is fanned out to the subscribers. -/
def readStanza (c : ConnState) (nv : Stanza) : ConnState × List Event :=
  match nv with
  | Stanza.iq q =>
    if q.header.typ = "result" ∨ q.header.typ = "error" then
      match cbLookup c.callbacks (Stanza.iq q).ID with
      | some ch =>
        ({ c with callbacks := cbRemove c.callbacks q.header.id },
          [Event.deliver ch q, Event.removeCb q.header.id])
      | none => (c, [])
    else (c, [Event.fanout (Stanza.iq q)])
  | s => (c, [Event.fanout s])

/-- What `nextStartElement` hands the router loop: a decoded stanza, or
end-of-stream (`nil` start element: the closing stream end element, or a
decoder error). -/
inductive RouterInput where
  | eos
  | stanza (s : Stanza)
deriving DecidableEq

/-- `Connection.read`, the router loop, over a list of inputs.  On
end-of-stream it closes every registered callback channel, invokes
`Close`, and returns (remaining inputs are never looked at). -/
def readLoop (c : ConnState) : List RouterInput → ConnState × List Event
  | [] => (c, [])
  | RouterInput.eos :: _ =>
    ((closeConn c).1, c.callbacks.map (fun p => Event.closeChan p.2) ++ (closeConn c).2)
  | RouterInput.stanza s :: rest =>
    let r := readStanza c s
    let r2 := readLoop r.1 rest
    (r2.1, r.2 ++ r2.2)

/-- Recognizer for `Event.deliver`. -/
def isDeliverEv : Event → Bool
  | Event.deliver _ _ => true
  | _ => false

/-- Recognizer for `Event.removeCb`. -/
def isRemoveEv : Event → Bool
  | Event.removeCb _ => true
  | _ => false

/-! ## Subscriber fan-out (`subscribers.send`) -/

/-- A buffered Go channel of stanzas: capacity and current contents. -/
structure Chan where
  cap : Nat
  buf : List Stanza
deriving DecidableEq

/-- A non-blocking send (`select` with a `default` arm): append the stanza
when there is room, otherwise leave the channel unchanged. -/
def trySend (ch : Chan) (st : Stanza) : Chan :=
  if ch.buf.length < ch.cap then { ch with buf := ch.buf ++ [st] } else ch

/-- `subscribers.send`: attempt a non-blocking send to every sink. -/
def subscribersSend (chans : List Chan) (st : Stanza) : List Chan :=
  chans.map (fun ch => trySend ch st)

/-! ## Session API wire output (`SendIQ` / `SendIQReply`) -/

/-- The `toAttr` computation shared by `SendIQ` and `SendIQReply`:
empty when `to` is empty, otherwise the escaped attribute. -/
def iqToAttr (toA : String) : String :=
  if toA.length > 0 then "to='" ++ xmlEscape toA ++ "'" else ""

/-- The bytes `SendIQ` writes, with the payload already XML-encoded. -/
def sendIQWire (jid toA typ cookie payload : String) : String :=
  "<iq " ++ iqToAttr toA ++ " from='" ++ xmlEscape jid ++ "' type='" ++
    xmlEscape typ ++ "' id='" ++ cookie ++ "'>" ++ payload ++ "</iq>"

/-- The bytes `SendIQReply` writes; a `nil` value encodes to nothing. -/
def sendIQReplyWire (jid toA typ id : String) (value : Option String) : String :=
  "<iq " ++ iqToAttr toA ++ " from='" ++ xmlEscape jid ++ "' type='" ++
    xmlEscape typ ++ "' id='" ++ id ++ "'>" ++ value.getD "" ++ "</iq>"

/-! ## The rfc6121 layer's inbound loop (`rfc6121.Connection.read`) -/

/-- The calls the rfc6121 read loop makes back into the core. -/
inductive Action61 where
  | sendIQReply (toA typ id : String) (value : Option String)
  | emitAuthRequest (h : Header) (lang showAttr status : String) (priority : Int)
deriving DecidableEq

/-- One iteration of the rfc6121 `read` loop: answer roster pushes
(`query` in `jabber:iq:roster`, type `set`) with an empty result IQ;
re-emit presence of type `subscribe` as an authorization request. -/
def rfc6121Read (st : Stanza) : List Action61 :=
  match st with
  | Stanza.iq q =>
    if q.query.space = "jabber:iq:roster" ∧ q.header.typ = "set" then
      [Action61.sendIQReply "" "result" (Stanza.iq q).ID none]
    else []
  | Stanza.presence h lang showAttr status priority =>
    if h.typ = "subscribe" then
      [Action61.emitAuthRequest h lang showAttr status priority]
    else []
  | _ => []

/-! ## Helper lemmas -/

/-- Looking up an id after Go's `delete` on the callbacks map finds nothing. -/
theorem cbLookup_cbRemove (l : List (String × Nat)) (id : String) :
    cbLookup (cbRemove l id) id = none := by
  induction l with
  | nil => rfl
  | cons p r ih =>
    by_cases h : p.1 = id
    · simpa [cbRemove, List.filter_cons, h] using ih
    · simpa [cbRemove, List.filter_cons, h, cbLookup] using ih

/-! ## C4: close semantics -/

/-- C4: the first call to `Close` (with `closing` unset) writes the literal
`</stream:stream>`, sets `closing`, and does not touch the TCP connection;
any call with `closing` already set closes the TCP connection and writes
nothing.  In particular a second call right after the first one is hard. -/
theorem close_graceful_then_hard (c : ConnState) (h : c.closing = false) :
    closeConn c = ({ c with closing := true }, [Event.write "</stream:stream>"]) ∧
    (∀ e ∈ (closeConn c).2, e ≠ Event.closeTCP) ∧
    closeConn (closeConn c).1 = ((closeConn c).1, [Event.closeTCP]) ∧
    (∀ c2 : ConnState, c2.closing = true →
      closeConn c2 = (c2, [Event.closeTCP]) ∧ ∀ b, Event.write b ∉ (closeConn c2).2) := by
  refine ⟨by simp [closeConn, h], ?_, by simp [closeConn, h], ?_⟩
  · intro e he
    simp [closeConn, h] at he
    simp [he]
  · intro c2 h2
    refine ⟨by simp [closeConn, h2], ?_⟩
    intro b hb
    simp [closeConn, h2] at hb

/-- Witness for C4 at a concrete connection state. -/
theorem close_graceful_then_hard_witness :
    closeConn ⟨[], false⟩ = (⟨[], true⟩, [Event.write "</stream:stream>"]) ∧
    (∀ e ∈ (closeConn ⟨[], false⟩).2, e ≠ Event.closeTCP) ∧
    closeConn (closeConn ⟨[], false⟩).1 = ((closeConn ⟨[], false⟩).1, [Event.closeTCP]) ∧
    (∀ c2 : ConnState, c2.closing = true →
      closeConn c2 = (c2, [Event.closeTCP]) ∧ ∀ b, Event.write b ∉ (closeConn c2).2) :=
  close_graceful_then_hard ⟨[], false⟩ rfl

/-! ## C2: version check of receiveStream -/

/-- C2: for a peer stream opener in the streams namespace, version `1.0`
and `1.9` are accepted, `2.0` fails with `UnsupportedVersion("2.0")`, a
missing version attribute fails with `UnsupportedVersion("0.9")`, and any
non-empty version whose major component is not `1` fails with
`UnsupportedVersion` carrying that version verbatim. -/
theorem receiveStream_version_check :
    receiveStream (mkStreamOpener [versionAttr "1.0"]) = ReceiveOutcome.ok ∧
    receiveStream (mkStreamOpener [versionAttr "1.9"]) = ReceiveOutcome.ok ∧
    receiveStream (mkStreamOpener [versionAttr "2.0"]) = ReceiveOutcome.unsupportedVersion "2.0" ∧
    receiveStream (mkStreamOpener []) = ReceiveOutcome.unsupportedVersion "0.9" ∧
    ∀ v : String, v ≠ "" → majorPart v ≠ "1" →
      receiveStream (mkStreamOpener [versionAttr v]) = ReceiveOutcome.unsupportedVersion v := by
  refine ⟨by decide, by decide, by decide, by decide, ?_⟩
  intro v h1 h2
  simp [receiveStream, mkStreamOpener, versionAttr, versionOfAttrs, h1, h2]

/-- Witness for C2, discharging the hypotheses of its general clause at a
concrete malformed version. -/
theorem receiveStream_version_check_witness :
    receiveStream (mkStreamOpener [versionAttr "0.11"]) =
      ReceiveOutcome.unsupportedVersion "0.11" :=
  receiveStream_version_check.2.2.2.2 "0.11" (by decide) (by decide)

/-! ## C3: router shutdown on end-of-stream -/

/-- C3: when the router observes end-of-stream it closes every registered
callback channel, invokes `Close`, and terminates: its outcome does not
depend on anything that might follow in the input. -/
theorem router_eos_shutdown (c : ConnState) (rest : List RouterInput) :
    readLoop c (RouterInput.eos :: rest) =
      ((closeConn c).1, c.callbacks.map (fun p => Event.closeChan p.2) ++ (closeConn c).2) ∧
    (∀ p ∈ c.callbacks, Event.closeChan p.2 ∈ (readLoop c (RouterInput.eos :: rest)).2) ∧
    readLoop c (RouterInput.eos :: rest) = readLoop c [RouterInput.eos] := by
  refine ⟨rfl, ?_, rfl⟩
  intro p hp
  simp only [readLoop]
  exact List.mem_append_left _ (List.mem_map.mpr ⟨p, hp, rfl⟩)

/-- Witness for C3 at a concrete state with two pending callbacks. -/
theorem router_eos_shutdown_witness :
    Event.closeChan 5 ∈ (readLoop ⟨[("1", 5), ("2", 7)], false⟩
      (RouterInput.eos :: [RouterInput.stanza (Stanza.streamError "gone")])).2 :=
  (router_eos_shutdown ⟨[("1", 5), ("2", 7)], false⟩
      [RouterInput.stanza (Stanza.streamError "gone")]).2.1 ("1", 5) (by simp)

/-! ## C1: IQ correlation (corrected: delivery precedes removal) -/

/-- C1 counterexample: at a concrete state whose callbacks map holds id
`"1"` and an inbound result IQ with that id, the router's operation trace
is delivery first, then map removal — the map entry is NOT removed before
the delivery slot is signaled, refuting the claim's ordering clause. -/
theorem router_remove_before_deliver_cex :
    (readStanza ⟨[("1", 5)], false⟩
        (Stanza.iq ⟨⟨"srv", "1", "", "result"⟩, none, ⟨"", ""⟩, ""⟩)).2 =
      [Event.deliver 5 ⟨⟨"srv", "1", "", "result"⟩, none, ⟨"", ""⟩, ""⟩,
        Event.removeCb "1"] ∧
    ¬ List.findIdx isRemoveEv (readStanza ⟨[("1", 5)], false⟩
          (Stanza.iq ⟨⟨"srv", "1", "", "result"⟩, none, ⟨"", ""⟩, ""⟩)).2 <
        List.findIdx isDeliverEv (readStanza ⟨[("1", 5)], false⟩
          (Stanza.iq ⟨⟨"srv", "1", "", "result"⟩, none, ⟨"", ""⟩, ""⟩)).2 :=
  ⟨by decide, by decide⟩

/-- C1 (amended): for every inbound IQ of type `result` or `error` whose id
is registered, the router delivers exactly that stanza to the registered
slot exactly once and afterwards the id is absent from the callbacks map;
the delivery slot is signaled first and the map entry removed second. -/
theorem router_iq_delivery (c : ConnState) (q : IQ) (ch : Nat)
    (hty : q.header.typ = "result" ∨ q.header.typ = "error")
    (hcb : cbLookup c.callbacks q.header.id = some ch) :
    readStanza c (Stanza.iq q) =
      ({ c with callbacks := cbRemove c.callbacks q.header.id },
        [Event.deliver ch q, Event.removeCb q.header.id]) ∧
    List.countP isDeliverEv (readStanza c (Stanza.iq q)).2 = 1 ∧
    cbLookup (readStanza c (Stanza.iq q)).1.callbacks q.header.id = none := by
  have hstep : readStanza c (Stanza.iq q) =
      ({ c with callbacks := cbRemove c.callbacks q.header.id },
        [Event.deliver ch q, Event.removeCb q.header.id]) := by
    simp only [readStanza, Stanza.ID]
    rw [if_pos hty, hcb]
  refine ⟨hstep, ?_, ?_⟩
  · rw [hstep]
    simp [List.countP_cons, isDeliverEv]
  · rw [hstep]
    exact cbLookup_cbRemove c.callbacks q.header.id

/-- Witness for C1's amended theorem at a concrete state and stanza. -/
theorem router_iq_delivery_witness :
    readStanza ⟨[("1", 5)], false⟩
        (Stanza.iq ⟨⟨"srv", "1", "", "result"⟩, none, ⟨"", ""⟩, ""⟩) =
      (⟨cbRemove [("1", 5)] "1", false⟩,
        [Event.deliver 5 ⟨⟨"srv", "1", "", "result"⟩, none, ⟨"", ""⟩, ""⟩,
          Event.removeCb "1"]) ∧
    List.countP isDeliverEv (readStanza ⟨[("1", 5)], false⟩
        (Stanza.iq ⟨⟨"srv", "1", "", "result"⟩, none, ⟨"", ""⟩, ""⟩)).2 = 1 ∧
    cbLookup (readStanza ⟨[("1", 5)], false⟩
        (Stanza.iq ⟨⟨"srv", "1", "", "result"⟩, none, ⟨"", ""⟩, ""⟩)).1.callbacks "1" = none :=
  router_iq_delivery ⟨[("1", 5)], false⟩ ⟨⟨"srv", "1", "", "result"⟩, none, ⟨"", ""⟩, ""⟩ 5
    (Or.inl rfl) (by decide)

/-! ## C5: non-blocking subscriber fan-out -/

/-- C5: one fan-out maps every sink independently through a non-blocking
send: a sink with room receives exactly the stanza appended to its buffer,
a full sink is left unchanged, and the result at each position depends
only on that sink; the list of sinks keeps its length. -/
theorem subscribers_send_nonblocking (chans : List Chan) (st : Stanza) (i : Nat) (d : Chan)
    (h : i < chans.length) :
    (subscribersSend chans st).length = chans.length ∧
    (subscribersSend chans st).getD i d = trySend (chans.getD i d) st ∧
    ((chans.getD i d).buf.length < (chans.getD i d).cap →
      (subscribersSend chans st).getD i d =
        { chans.getD i d with buf := (chans.getD i d).buf ++ [st] }) ∧
    (¬ (chans.getD i d).buf.length < (chans.getD i d).cap →
      (subscribersSend chans st).getD i d = chans.getD i d) := by
  have hget : (subscribersSend chans st).getD i d = trySend (chans.getD i d) st := by
    rw [List.getD_eq_getElem?_getD, List.getD_eq_getElem?_getD]
    simp only [subscribersSend, List.getElem?_map, List.getElem?_eq_getElem h]
    rfl
  refine ⟨by simp [subscribersSend], hget, ?_, ?_⟩
  · intro hroom
    rw [hget, trySend, if_pos hroom]
  · intro hfull
    rw [hget, trySend, if_neg hfull]

/-- Witness for C5: two sinks, the first with room, the second full. -/
theorem subscribers_send_nonblocking_witness :
    (subscribersSend [⟨1, []⟩, ⟨0, []⟩] (Stanza.streamError "x")).length =
      ([⟨1, []⟩, ⟨0, []⟩] : List Chan).length ∧
    (subscribersSend [⟨1, []⟩, ⟨0, []⟩] (Stanza.streamError "x")).getD 0 ⟨0, []⟩ =
      trySend (([⟨1, []⟩, ⟨0, []⟩] : List Chan).getD 0 ⟨0, []⟩) (Stanza.streamError "x") ∧
    ((([⟨1, []⟩, ⟨0, []⟩] : List Chan).getD 0 ⟨0, []⟩).buf.length <
        (([⟨1, []⟩, ⟨0, []⟩] : List Chan).getD 0 ⟨0, []⟩).cap →
      (subscribersSend [⟨1, []⟩, ⟨0, []⟩] (Stanza.streamError "x")).getD 0 ⟨0, []⟩ =
        { ([⟨1, []⟩, ⟨0, []⟩] : List Chan).getD 0 ⟨0, []⟩ with
            buf := (([⟨1, []⟩, ⟨0, []⟩] : List Chan).getD 0 ⟨0, []⟩).buf ++
              [Stanza.streamError "x"] }) ∧
    (¬ (([⟨1, []⟩, ⟨0, []⟩] : List Chan).getD 0 ⟨0, []⟩).buf.length <
        (([⟨1, []⟩, ⟨0, []⟩] : List Chan).getD 0 ⟨0, []⟩).cap →
      (subscribersSend [⟨1, []⟩, ⟨0, []⟩] (Stanza.streamError "x")).getD 0 ⟨0, []⟩ =
        ([⟨1, []⟩, ⟨0, []⟩] : List Chan).getD 0 ⟨0, []⟩) :=
  subscribers_send_nonblocking [⟨1, []⟩, ⟨0, []⟩] (Stanza.streamError "x") 0 ⟨0, []⟩
    (by decide)

/-! ## C7: SASL PLAIN wire format -/

/-- C7: `sasl` writes exactly the `<auth>` element whose body is the
standard base64 encoding of `NUL user NUL password`; for user `alice` and
password `s3cret` that body is `AGFsaWNlAHMzY3JldA==`. -/
theorem sasl_plain_wire :
    (∀ user password : List Nat,
      saslAuth user password =
        "<auth xmlns='urn:ietf:params:xml:ns:xmpp-sasl' mechanism='PLAIN'>" ++
          String.mk (b64Encode (0 :: (user ++ 0 :: password))) ++ "</auth>") ∧
    saslAuth (asciiBytes "alice") (asciiBytes "s3cret") =
      "<auth xmlns='urn:ietf:params:xml:ns:xmpp-sasl' mechanism='PLAIN'>AGFsaWNlAHMzY3JldA==</auth>" :=
  ⟨fun _ _ => rfl, by decide⟩

/-! ## C9: the optional `to` attribute of SendIQ / SendIQReply -/

/-- A non-empty string has positive length. -/
theorem strLength_pos (s : String) (h : s ≠ "") : 0 < s.length := by
  cases s with
  | mk l =>
    cases l with
    | nil => exact absurd rfl h
    | cons c r => simp [String.length]

/-- The opening chunk of an iq element with an empty `to`: no attribute. -/
theorem iqOpen_empty : ("<iq " ++ iqToAttr "" ++ " from='" : String) = "<iq  from='" := rfl

/-- The opening chunk of an iq element with a non-empty `to`: the
attribute is present with its value escaped. -/
theorem iqOpen_to (toA : String) (h : toA ≠ "") :
    ("<iq " ++ iqToAttr toA ++ " from='" : String) =
      "<iq to='" ++ xmlEscape toA ++ "' from='" := by
  unfold iqToAttr
  rw [if_pos (strLength_pos toA h)]
  rw [← String.append_assoc "<iq " ("to='" ++ xmlEscape toA) "'"]
  rw [← String.append_assoc "<iq " "to='" (xmlEscape toA)]
  rw [show ("<iq " ++ "to='" : String) = "<iq to='" from rfl]
  rw [String.append_assoc ("<iq to='" ++ xmlEscape toA) "'" " from='"]
  rfl

/-- C9: with an empty `to` the emitted iq start tag has no `to` attribute
at all; with a non-empty `to` the attribute appears with its value
XML-escaped — for `SendIQ` and `SendIQReply` alike. -/
theorem sendIQ_to_attribute (jid toA typ cookie payload id : String) (value : Option String)
    (h : toA ≠ "") :
    sendIQWire jid "" typ cookie payload =
      "<iq  from='" ++ xmlEscape jid ++ "' type='" ++ xmlEscape typ ++ "' id='" ++ cookie
        ++ "'>" ++ payload ++ "</iq>" ∧
    sendIQWire jid toA typ cookie payload =
      "<iq to='" ++ xmlEscape toA ++ "' from='" ++ xmlEscape jid ++ "' type='" ++ xmlEscape typ
        ++ "' id='" ++ cookie ++ "'>" ++ payload ++ "</iq>" ∧
    sendIQReplyWire jid "" typ id value =
      "<iq  from='" ++ xmlEscape jid ++ "' type='" ++ xmlEscape typ ++ "' id='" ++ id
        ++ "'>" ++ value.getD "" ++ "</iq>" ∧
    sendIQReplyWire jid toA typ id value =
      "<iq to='" ++ xmlEscape toA ++ "' from='" ++ xmlEscape jid ++ "' type='" ++ xmlEscape typ
        ++ "' id='" ++ id ++ "'>" ++ value.getD "" ++ "</iq>" := by
  refine ⟨?_, ?_, ?_, ?_⟩
  · unfold sendIQWire
    rw [iqOpen_empty]
  · unfold sendIQWire
    rw [iqOpen_to toA h]
  · unfold sendIQReplyWire
    rw [iqOpen_empty]
  · unfold sendIQReplyWire
    rw [iqOpen_to toA h]

/-- Witness for C9 at concrete arguments. -/
theorem sendIQ_to_attribute_witness :
    sendIQWire "me@x/r" "" "set" "0" "<p/>" =
      "<iq  from='" ++ xmlEscape "me@x/r" ++ "' type='" ++ xmlEscape "set" ++ "' id='" ++ "0"
        ++ "'>" ++ "<p/>" ++ "</iq>" ∧
    sendIQWire "me@x/r" "you" "set" "0" "<p/>" =
      "<iq to='" ++ xmlEscape "you" ++ "' from='" ++ xmlEscape "me@x/r" ++ "' type='"
        ++ xmlEscape "set" ++ "' id='" ++ "0" ++ "'>" ++ "<p/>" ++ "</iq>" ∧
    sendIQReplyWire "me@x/r" "" "set" "1" none =
      "<iq  from='" ++ xmlEscape "me@x/r" ++ "' type='" ++ xmlEscape "set" ++ "' id='" ++ "1"
        ++ "'>" ++ (none : Option String).getD "" ++ "</iq>" ∧
    sendIQReplyWire "me@x/r" "you" "set" "1" none =
      "<iq to='" ++ xmlEscape "you" ++ "' from='" ++ xmlEscape "me@x/r" ++ "' type='"
        ++ xmlEscape "set" ++ "' id='" ++ "1" ++ "'>" ++ (none : Option String).getD ""
        ++ "</iq>" :=
  sendIQ_to_attribute "me@x/r" "you" "set" "0" "<p/>" "1" none (by decide)

/-! ## C10: automatic roster push reply -/

/-- C10: an inbound IQ whose query is in `jabber:iq:roster` with type
`set` makes the rfc6121 read loop call `SendIQReply` with empty `to`,
type `result`, the push's own id and a nil payload — and that call puts
on the wire an iq with no `to` attribute, type `result`, the same id and
an empty body. -/
theorem roster_push_autoreply (q : IQ) (jid : String)
    (hq : q.query.space = "jabber:iq:roster") (hty : q.header.typ = "set") :
    rfc6121Read (Stanza.iq q) = [Action61.sendIQReply "" "result" q.header.id none] ∧
    sendIQReplyWire jid "" "result" q.header.id none =
      "<iq  from='" ++ xmlEscape jid ++ "' type='result' id='" ++ q.header.id
        ++ "'></iq>" := by
  constructor
  · simp [rfc6121Read, Stanza.ID, hq, hty]
  · unfold sendIQReplyWire
    rw [iqOpen_empty]
    rw [show xmlEscape "result" = "result" from rfl]
    rw [String.append_assoc ("<iq  from='" ++ xmlEscape jid) "' type='" "result"]
    rw [show ("' type='" ++ "result" : String) = "' type='result" from rfl]
    rw [String.append_assoc ("<iq  from='" ++ xmlEscape jid) "' type='result" "' id='"]
    rw [show ("' type='result" ++ "' id='" : String) = "' type='result' id='" from rfl]
    rw [Option.getD_none, String.append_empty]
    rw [String.append_assoc ("<iq  from='" ++ xmlEscape jid ++ "' type='result' id='"
      ++ q.header.id) "'>" "</iq>"]
    rfl

/-- Witness for C10 at a concrete roster push and jid. -/
theorem roster_push_autoreply_witness :
    rfc6121Read (Stanza.iq ⟨⟨"", "push-1", "", "set"⟩, none,
        ⟨"jabber:iq:roster", "query"⟩, ""⟩) =
      [Action61.sendIQReply "" "result" "push-1" none] ∧
    sendIQReplyWire "me@x/r" "" "result" "push-1" none =
      "<iq  from='" ++ xmlEscape "me@x/r" ++ "' type='result' id='" ++ "push-1"
        ++ "'></iq>" :=
  roster_push_autoreply ⟨⟨"", "push-1", "", "set"⟩, none,
    ⟨"jabber:iq:roster", "query"⟩, ""⟩ "me@x/r" rfl rfl

/-! ## C8: XML escaping and its round trip -/

/-- Undoing one escaped character from the front of a list. -/
theorem unesc_escChar (c : Char) (rest : List Char) :
    unesc (escChar c ++ rest) = c :: unesc rest := by
  by_cases h60 : c = Char.ofNat 60
  · subst h60
    simp [escChar, unesc, List.take, List.drop]
  by_cases h62 : c = Char.ofNat 62
  · subst h62
    simp [escChar, unesc, List.take, List.drop]
  by_cases h34 : c = Char.ofNat 34
  · subst h34
    simp [escChar, unesc, List.take, List.drop]
  by_cases h39 : c = Char.ofNat 39
  · subst h39
    simp [escChar, unesc, List.take, List.drop]
  by_cases h38 : c = Char.ofNat 38
  · subst h38
    simp [escChar, unesc, List.take, List.drop]
  · rw [show escChar c = [c] by simp [escChar, h60, h62, h34, h39, h38]]
    simp [unesc, h38]

/-- Undoing the whole escape of a character list. -/
theorem unesc_flatMap_escChar (l : List Char) :
    unesc (l.flatMap escChar) = l := by
  induction l with
  | nil => simp [unesc]
  | cons c r ih =>
    rw [List.flatMap_cons, unesc_escChar, ih]

/-- C8: `xmlEscape` turns each of the five XML-special characters into its
named entity and keeps every other character; it distributes over
concatenation (so exactly the occurrences are replaced), and unescaping
its output recovers the original string. -/
theorem xmlEscape_roundtrip :
    xmlEscape (String.mk [Char.ofNat 60]) = "&lt;" ∧
    xmlEscape (String.mk [Char.ofNat 62]) = "&gt;" ∧
    xmlEscape (String.mk [Char.ofNat 34]) = "&quot;" ∧
    xmlEscape (String.mk [Char.ofNat 39]) = "&apos;" ∧
    xmlEscape (String.mk [Char.ofNat 38]) = "&amp;" ∧
    (∀ c : Char, c ≠ Char.ofNat 60 → c ≠ Char.ofNat 62 → c ≠ Char.ofNat 34 →
      c ≠ Char.ofNat 39 → c ≠ Char.ofNat 38 → xmlEscape (String.mk [c]) = String.mk [c]) ∧
    (∀ s t : String, xmlEscape (s ++ t) = xmlEscape s ++ xmlEscape t) ∧
    (∀ s : String, xmlUnescape (xmlEscape s) = s) := by
  refine ⟨by decide, by decide, by decide, by decide, by decide, ?_, ?_, ?_⟩
  · intro c h60 h62 h34 h39 h38
    simp [xmlEscape, escChar, h60, h62, h34, h39, h38]
  · intro s t
    cases s with
    | mk a =>
      cases t with
      | mk b =>
        show String.mk ((a ++ b).flatMap escChar) =
          String.mk (a.flatMap escChar ++ b.flatMap escChar)
        rw [List.flatMap_append]
  · intro s
    cases s with
    | mk l =>
      show String.mk (unesc (l.flatMap escChar)) = String.mk l
      rw [unesc_flatMap_escChar]

/-- Witness for C8, discharging the non-special-character hypotheses. -/
theorem xmlEscape_roundtrip_witness :
    xmlEscape (String.mk ['x']) = String.mk ['x'] :=
  xmlEscape_roundtrip.2.2.2.2.2.1 'x' (by decide) (by decide) (by decide) (by decide)
    (by decide)

/-! ## C6: the id generator -/

/-- Reading back a decimal digit character gives the digit. -/
theorem charDigit_digitChar {d : Nat} (h : d < 10) : charDigit (digitChar d) = d := by
  interval_cases d <;> decide

/-- `strToNat` is a left inverse of `decimalStr`. -/
theorem strToNat_decimalStr (n : Nat) : strToNat (decimalStr n) = n := by
  by_cases h : n = 0
  · subst h
    decide
  · unfold decimalStr strToNat
    rw [if_neg h]
    show Nat.ofDigits 10
      ((((Nat.digits 10 n).reverse.map digitChar).map charDigit).reverse) = n
    rw [List.map_map]
    have hmap : ((Nat.digits 10 n).reverse).map (charDigit ∘ digitChar) =
        ((Nat.digits 10 n).reverse).map id :=
      List.map_congr_left (fun d hd =>
        charDigit_digitChar (Nat.digits_lt_base (by norm_num) (List.mem_reverse.mp hd)))
    rw [hmap, List.map_id, List.reverse_reverse, Nat.ofDigits_digits]

/-- Distinct numbers render to distinct decimal strings. -/
theorem decimalStr_injective : Function.Injective decimalStr := by
  intro a b hab
  have h2 := congrArg strToNat hab
  rwa [strToNat_decimalStr, strToNat_decimalStr] at h2

/-- Closed form of the generator: starting from a counter value below
2^64, the k-th id handed out is the decimal rendering of the counter
advanced k steps modulo 2^64. -/
theorem generateCookies_closed (n : Nat) : ∀ id : Nat, id < 2 ^ 64 →
    generateCookies n id =
      (List.range n).map (fun k => decimalStr ((id + k) % 2 ^ 64)) := by
  induction n with
  | zero => intro id h; rfl
  | succ m ih =>
    intro id h
    rw [List.range_succ_eq_map]
    simp only [generateCookies, List.map_cons, List.map_map]
    congr 1
    · rw [Nat.add_zero, Nat.mod_eq_of_lt h]
    · rw [ih ((id + 1) % 2 ^ 64) (Nat.mod_lt _ (by norm_num))]
      refine List.map_congr_left ?_
      intro k _
      simp only [Function.comp]
      rw [Nat.mod_add_mod]
      congr 1
      omega

/-- C6 counterexample: after 2^64 ids the `uint64` counter wraps, so in a
run of 2^64 + 1 ids the last id is `"0"` again — it is not the decimal
rendering of its (position − 1) and the ids are not pairwise distinct. -/
theorem generateCookies_wraparound_cex :
    (generateCookies (2 ^ 64 + 1) 0).getD (2 ^ 64) "" = "0" ∧
    decimalStr (2 ^ 64 + 1 - 1) ≠ "0" ∧
    ¬ (generateCookies (2 ^ 64 + 1) 0).Nodup := by
  have hl : generateCookies (2 ^ 64 + 1) 0 =
      (List.range (2 ^ 64 + 1)).map (fun k => decimalStr ((0 + k) % 2 ^ 64)) :=
    generateCookies_closed (2 ^ 64 + 1) 0 (by norm_num)
  refine ⟨?_, ?_, ?_⟩
  · rw [hl, List.getD_eq_getElem?_getD, List.getElem?_map,
      List.getElem?_range (Nat.lt_succ_self (2 ^ 64))]
    show decimalStr ((0 + 2 ^ 64) % 2 ^ 64) = "0"
    rw [Nat.zero_add, Nat.mod_self]
    rfl
  · intro hc
    have h2 := congrArg strToNat hc
    rw [strToNat_decimalStr, show strToNat "0" = 0 from rfl] at h2
    norm_num at h2
  · intro hnd
    rw [hl] at hnd
    have hinj := List.nodup_iff_injective_get.mp hnd
    have hlen : ((List.range (2 ^ 64 + 1)).map
        (fun k => decimalStr ((0 + k) % 2 ^ 64))).length = 2 ^ 64 + 1 := by
      rw [List.length_map, List.length_range]
    have h01 : ((List.range (2 ^ 64 + 1)).map (fun k => decimalStr ((0 + k) % 2 ^ 64))).get
          ⟨0, by rw [hlen]; exact Nat.succ_pos _⟩ =
        ((List.range (2 ^ 64 + 1)).map (fun k => decimalStr ((0 + k) % 2 ^ 64))).get
          ⟨2 ^ 64, by rw [hlen]; exact Nat.lt_succ_self _⟩ := by
      rw [List.get_eq_getElem, List.get_eq_getElem, List.getElem_map, List.getElem_map,
        List.getElem_range, List.getElem_range]
      rw [Nat.zero_add, Nat.zero_add, Nat.mod_self, Nat.zero_mod]
    have hfin := hinj h01
    have h02 : (0 : Nat) = 2 ^ 64 := congrArg Fin.val hfin
    norm_num at h02

/-- C6 (amended): the ids are the decimal renderings of a `uint64` counter
started at 0 and stepped by one modulo 2^64, so in any session that hands
out at most 2^64 ids, the n-th id is the decimal string of n − 1 and all
ids are pairwise distinct. -/
theorem generateCookies_decimal_nodup (n : Nat) (h : n ≤ 2 ^ 64) :
    generateCookies n 0 = (List.range n).map decimalStr ∧
    (generateCookies n 0).Nodup := by
  have hl : generateCookies n 0 = (List.range n).map decimalStr := by
    rw [generateCookies_closed n 0 (by norm_num)]
    refine List.map_congr_left ?_
    intro k hk
    rw [Nat.zero_add, Nat.mod_eq_of_lt (lt_of_lt_of_le (List.mem_range.mp hk) h)]
  exact ⟨hl, hl ▸ (List.nodup_range n).map decimalStr_injective⟩

/-- Witness for C6's amended theorem in a short session. -/
theorem generateCookies_decimal_nodup_witness :
    generateCookies 3 0 = (List.range 3).map decimalStr ∧
    (generateCookies 3 0).Nodup :=
  generateCookies_decimal_nodup 3 (by norm_num)

end XmppClient
